import Mathlib

/-!
Shallow embedding of the tabular analysis engine of src/pj1.add.py:
schema check (lines 73-91), numeric coercion and cleaning (lines 104-109),
region/district selection and filtering (lines 112-150), KPI metrics
(lines 159-194), the top-growth view (lines 210-215), the quadrant split
(lines 427-433) and the trend split (lines 465-477).

Numbers are modelled as rationals.  A raw spreadsheet cell is either a
numeric value or non-numeric content (text such as "N/A", or an empty
cell); pandas to_numeric with errors set to coerce turns the latter into
NaN, modelled here as Option.none.
-/

namespace PJ1

/-- One raw spreadsheet cell before coercion: a numeric value, or
non-numeric content (text such as "N/A", or an empty cell). -/
inductive Cell where
  | num (q : ℚ)
  | na (s : String)
deriving DecidableEq

/-- Numeric coercion of one cell, as done column-wise by pandas
to_numeric with errors set to coerce (src lines 104-106): numeric values
pass through, non-numeric content becomes missing (NaN). -/
def toNumeric : Cell → Option ℚ
  | .num q => some q
  | .na _ => none

/-- One raw row of the spreadsheet, restricted to the six columns the
engine reads (업종, 시도, 시군구, 사업자수(당월), 사업자수(전월), 증감율). -/
structure RawRow where
  industry : String
  region : String
  district : String
  current : Cell
  previous : Cell
  growth : Cell
deriving DecidableEq

/-- A loaded table: the header names found in the file plus its rows. -/
structure RawTable where
  headers : List String
  rows : List RawRow
deriving DecidableEq

/-- One cleaned record: currentCount and growthRate are valid numbers
(rows failing coercion on either were dropped), previousCount may be
missing. -/
structure Row where
  industry : String
  region : String
  district : String
  current : ℚ
  previous : Option ℚ
  growth : ℚ
deriving DecidableEq

/-- The required column headers, in the insertion order of the
required_columns dict (src lines 73-80). -/
def requiredHeaders : List String :=
  ["업종", "시도", "시군구", "사업자수(당월)", "사업자수(전월)", "증감율"]

/-- Schema check (src lines 83-86): collect every required column name
absent from the table headers, in required-column order. -/
def missingCols (headers : List String) : List String :=
  requiredHeaders.filter (fun c => decide (c ∉ headers))

/-- Column-wise numeric coercion of one row (src lines 104-106). -/
structure CoercedRow where
  industry : String
  region : String
  district : String
  current : Option ℚ
  previous : Option ℚ
  growth : Option ℚ
deriving DecidableEq

/-- Coerce the three numeric columns of a row (src lines 104-106). -/
def coerceRow (rr : RawRow) : CoercedRow :=
  ⟨rr.industry, rr.region, rr.district,
    toNumeric rr.current, toNumeric rr.previous, toNumeric rr.growth⟩

/-- Dropna step for one coerced row (src line 109): the row survives iff
both the current-count and the growth-rate coerced to numbers; the
previous-count column is not in the dropna subset. -/
def dropnaRow : CoercedRow → Option Row
  | cr =>
    match cr.current, cr.growth with
    | some c, some g =>
        some ⟨cr.industry, cr.region, cr.district, c, cr.previous, g⟩
    | _, _ => none

/-- Cleaning pipeline (src lines 104-109): coerce the numeric columns,
then drop rows with missing current-count or growth-rate. -/
def cleanData (rows : List RawRow) : List Row :=
  (rows.map coerceRow).filterMap dropnaRow

/-- The cleaned record a raw row yields when it survives cleaning. -/
def cleanRow (rr : RawRow) : Row :=
  ⟨rr.industry, rr.region, rr.district,
    (toNumeric rr.current).getD 0, toNumeric rr.previous,
    (toNumeric rr.growth).getD 0⟩

/-- A raw row survives cleaning iff both current-count and growth-rate
coerce (src line 109). -/
def keepRow (rr : RawRow) : Bool :=
  (toNumeric rr.current).isSome && (toNumeric rr.growth).isSome

/-- District selector logic (src lines 116-120): a district can only be
chosen when a specific region is selected; under the nationwide sentinel
전체 the district selection is forced to 전체. -/
def selectedDistrict (selRegion choice : String) : String :=
  if selRegion ≠ "전체" then choice else "전체"

/-- Region/district filtering and the report title (src lines 137-146). -/
def applyFilter (df : List Row) (region district : String) :
    List Row × String :=
  if region = "전체" then (df, "전국")
  else if district = "전체" then
    (df.filter (fun r => decide (r.region = region)), region)
  else
    (df.filter (fun r => decide (r.region = region ∧ r.district = district)),
      region ++ " " ++ district)

/-- Outcome of one run of the dashboard script, one constructor per
terminal control-flow path of src/pj1.add.py: load failure (lines 55-58),
schema mismatch (lines 88-91), the empty-data warning (lines 148-150),
and the rendered dashboard over the filtered data. -/
inductive Outcome where
  | loadError (msg : String)
  | schemaMismatch (missing : List String)
  | noData (title : String)
  | dashboard (title : String) (data : List Row)
deriving DecidableEq

/-- The engine pipeline after a successful file read (src lines 82-150):
schema check, cleaning, district-selector logic, region/district filter,
empty check. -/
def pipeline (t : RawTable) (selRegion selDistrictChoice : String) :
    Outcome :=
  let missing := missingCols t.headers
  if missing.isEmpty then
    let cleaned := cleanData t.rows
    let d := selectedDistrict selRegion selDistrictChoice
    let fd := applyFilter cleaned selRegion d
    if fd.1.isEmpty then .noData fd.2 else .dashboard fd.2 fd.1
  else .schemaMismatch missing

/-- Full run including the file-read step (src lines 53-62): a read
failure is reported as its own distinct error before any schema or data
work. -/
def app : Except String RawTable → String → String → Outcome
  | .error e, _, _ => .loadError e
  | .ok t, selRegion, selDistrict => pipeline t selRegion selDistrict

/-- Previous-month total (src line 173): pandas sum skips missing
values, so rows whose previous-count failed coercion contribute
nothing. -/
def prevTotal (df : List Row) : ℚ :=
  (df.filterMap (·.previous)).sum

/-- Count of records at or above the growth threshold (src line 188). -/
def highGrowthCount (df : List Row) (minRate : ℚ) : ℕ :=
  (df.filter (fun r => decide (minRate ≤ r.growth))).length

/-- High-growth percentage (src line 189): part/total*100, explicitly 0
when the record count is 0. -/
def highGrowthPct (df : List Row) (minRate : ℚ) : ℚ :=
  if 0 < df.length then
    (highGrowthCount df minRate : ℚ) / (df.length : ℚ) * 100
  else 0

/-- Descending order on growth rate, the sort key of the top-growth
view. -/
def growthDesc (a b : Row) : Prop := b.growth ≤ a.growth

instance : DecidableRel growthDesc :=
  fun a b => inferInstanceAs (Decidable (b.growth ≤ a.growth))

instance : IsTotal Row growthDesc :=
  ⟨fun a b => le_total b.growth a.growth⟩

instance : IsTrans Row growthDesc :=
  ⟨fun _ _ _ h1 h2 => le_trans h2 h1⟩

/-- Top-growth view (src lines 210-215): keep records at or above the
threshold, sort descending by growth rate, take the first n.  The
source sorts with pandas sort_values; insertionSort realizes one
admissible sorted arrangement of the same records. -/
def topGrowth (df : List Row) (minRate : ℚ) (n : ℕ) : List Row :=
  ((df.filter (fun r => decide (minRate ≤ r.growth))).insertionSort
    growthDesc).take n

/-- Median of a list of numbers as pandas computes it: sort ascending,
take the middle element for odd length, the mean of the two middle
elements for even length. -/
def median (l : List ℚ) : ℚ :=
  let s := l.insertionSort (· ≤ ·)
  if l.length % 2 = 1 then s.getD (l.length / 2) 0
  else (s.getD (l.length / 2 - 1) 0 + s.getD (l.length / 2) 0) / 2

/-- Median of the current-count column (src line 427). -/
def medianStores (df : List Row) : ℚ := median (df.map (·.current))

/-- Median of the growth-rate column (src line 428). -/
def medianGrowth (df : List Row) : ℚ := median (df.map (·.growth))

/-- Star quadrant (src line 430): count at or above the count median and
growth at or above the growth median. -/
def q1 (df : List Row) : List Row :=
  df.filter (fun r =>
    decide (medianStores df ≤ r.current ∧ medianGrowth df ≤ r.growth))

/-- Emerging quadrant (src line 431): count below the count median,
growth at or above the growth median. -/
def q2 (df : List Row) : List Row :=
  df.filter (fun r =>
    decide (r.current < medianStores df ∧ medianGrowth df ≤ r.growth))

/-- Caution quadrant (src line 432): count below the count median and
growth below the growth median. -/
def q3 (df : List Row) : List Row :=
  df.filter (fun r =>
    decide (r.current < medianStores df ∧ r.growth < medianGrowth df))

/-- Stable quadrant (src line 433): count at or above the count median,
growth below the growth median. -/
def q4 (df : List Row) : List Row :=
  df.filter (fun r =>
    decide (medianStores df ≤ r.current ∧ r.growth < medianGrowth df))

/-- Increasing bucket of the trend split (src line 465). -/
def increase (df : List Row) : List Row :=
  df.filter (fun r => decide (0 < r.growth))

/-- Decreasing bucket of the trend split (src line 466). -/
def decrease (df : List Row) : List Row :=
  df.filter (fun r => decide (r.growth < 0))

/-- Flat bucket of the trend split (src line 467). -/
def stable (df : List Row) : List Row :=
  df.filter (fun r => decide (r.growth = 0))

/-- Increasing percentage (src line 471): a plain Python division whose
denominator is the record count, raising on an empty dataset; the error
case is modelled as none. -/
def increasePct (df : List Row) : Option ℚ :=
  if df.length = 0 then none
  else some (((increase df).length : ℚ) / (df.length : ℚ) * 100)

/-- Decreasing percentage (src line 474), analogous to increasePct. -/
def decreasePct (df : List Row) : Option ℚ :=
  if df.length = 0 then none
  else some (((decrease df).length : ℚ) / (df.length : ℚ) * 100)

/-! Concrete sample data used by the witnesses below. -/

/-- Sample cleaned record: a high-growth cafe row. -/
def exRow1 : Row := ⟨"카페", "서울", "강남구", 120, some 50, 150⟩

/-- Sample cleaned record: a low-growth convenience-store row. -/
def exRow2 : Row := ⟨"편의점", "서울", "강남구", 300, some 280, 20⟩

/-- Sample raw row with valid numbers everywhere. -/
def exRawSeoul : RawRow :=
  ⟨"카페", "서울", "강남구", .num 120, .num 100, .num 150⟩

/-- Sample raw row whose growth-rate cell is the text "N/A". -/
def exRawNA : RawRow :=
  ⟨"PC방", "부산", "해운대구", .num 80, .num 70, .na "N/A"⟩

/-- Sample raw row whose previous-count cell is the text "N/A" while the
current count and growth rate are valid numbers. -/
def exRawPrevNA : RawRow :=
  ⟨"카페", "서울", "강남구", .num 120, .na "N/A", .num 150⟩

/-- Header list lacking only the district column 시군구. -/
def exHeadersNoDistrict : List String :=
  ["업종", "시도", "사업자수(당월)", "사업자수(전월)", "증감율"]

/-- Header list lacking four of the six required columns. -/
def exHeadersPartial : List String := ["업종", "시도"]

/-! Shared helper lemmas. -/

/-- Cleaning is exactly a filter on coercible current-count and
growth-rate followed by the per-row coercion: it drops precisely the
non-coercible rows and keeps the rest in their original order. -/
lemma cleanData_filter_map (rows : List RawRow) :
    cleanData rows = (rows.filter keepRow).map cleanRow := by
  induction rows with
  | nil => rfl
  | cons rr rest ih =>
    simp only [cleanData, List.map_cons, List.filterMap_cons] at ih ⊢
    cases hc : toNumeric rr.current <;> cases hg : toNumeric rr.growth <;>
      simp [dropnaRow, coerceRow, keepRow, cleanRow, hc, hg,
        List.filter_cons, ih]

/-- Filtering an empty dataset yields an empty dataset in every
region/district branch. -/
lemma applyFilter_nil (sel d : String) : (applyFilter [] sel d).1 = [] := by
  unfold applyFilter
  split_ifs <;> rfl

/-- Every record of a dataset lands in one of the four quadrants. -/
lemma mem_quad_union (df : List Row) (r : Row) (hr : r ∈ df) :
    r ∈ q1 df ∨ r ∈ q2 df ∨ r ∈ q3 df ∨ r ∈ q4 df := by
  rcases le_or_lt (medianStores df) r.current with hc | hc <;>
    rcases le_or_lt (medianGrowth df) r.growth with hg | hg
  · exact Or.inl (List.mem_filter.2 ⟨hr, by simp [hc, hg]⟩)
  · exact Or.inr (Or.inr (Or.inr (List.mem_filter.2 ⟨hr, by simp [hc, hg]⟩)))
  · exact Or.inr (Or.inl (List.mem_filter.2 ⟨hr, by simp [hc, hg]⟩))
  · exact Or.inr (Or.inr (Or.inl (List.mem_filter.2 ⟨hr, by simp [hc, hg]⟩)))

/-- Four boolean predicates that hold on exactly one of the four for
every element split a list into four filters whose lengths sum to the
length of the list. -/
lemma length_filter_four {α : Type} (p1 p2 p3 p4 : α → Bool) (l : List α)
    (h : ∀ a ∈ l,
      (p1 a).toNat + (p2 a).toNat + (p3 a).toNat + (p4 a).toNat = 1) :
    (l.filter p1).length + (l.filter p2).length + (l.filter p3).length +
      (l.filter p4).length = l.length := by
  induction l with
  | nil => simp
  | cons a tl ih =>
    have ha := h a (List.mem_cons_self a tl)
    have ih2 := ih (fun b hb => h b (List.mem_cons_of_mem a hb))
    simp only [List.filter_cons]
    cases h1 : p1 a <;> cases h2 : p2 a <;> cases h3 : p3 a <;>
      cases h4 : p4 a <;>
      simp [h1, h2, h3, h4] at ha ⊢ <;> omega

/-! Claim theorems. -/

/-- C1: for every cleaned dataset, threshold and count, the top-growth
view returns only records whose growth rate is at least the threshold,
sorted non-increasing by growth rate, and its length is the minimum of n
and the number of qualifying records (so at most n, fewer when fewer
qualify). -/
theorem topGrowth_spec (df : List Row) (t : ℚ) (n : ℕ) :
    (∀ r ∈ topGrowth df t n, t ≤ r.growth) ∧
    List.Sorted growthDesc (topGrowth df t n) ∧
    (topGrowth df t n).length =
      min n ((df.filter (fun r => decide (t ≤ r.growth))).length) := by
  refine ⟨?_, ?_, ?_⟩
  · intro r hr
    have h1 : r ∈ (df.filter
        (fun r => decide (t ≤ r.growth))).insertionSort growthDesc :=
      (List.take_sublist n _).subset hr
    rw [List.mem_insertionSort] at h1
    exact of_decide_eq_true (List.mem_filter.1 h1).2
  · exact List.Pairwise.sublist (List.take_sublist n _)
      (List.sorted_insertionSort growthDesc _)
  · simp [topGrowth]

/-- Witness for C1 at a concrete two-record dataset. -/
theorem topGrowth_spec_witness : (100 : ℚ) ≤ exRow1.growth :=
  (topGrowth_spec [exRow1, exRow2] 100 10).1 exRow1 (by decide)

/-- C3: cleaning drops exactly the rows whose current-count or
growth-rate cell fails numeric coercion, keeps every row with both
valid (in original order, as the filter/map form shows), and a row is
never dropped for a non-numeric previous-count cell alone. -/
theorem loader_drops_exactly (rows : List RawRow) :
    cleanData rows = (rows.filter keepRow).map cleanRow ∧
    (∀ rr : RawRow, keepRow rr = true ↔
      ((toNumeric rr.current).isSome ∧ (toNumeric rr.growth).isSome)) ∧
    (∀ rr ∈ rows, (toNumeric rr.current).isSome →
      (toNumeric rr.growth).isSome → cleanRow rr ∈ cleanData rows) := by
  refine ⟨cleanData_filter_map rows, ?_, ?_⟩
  · intro rr
    simp [keepRow]
  · intro rr hmem hc hg
    rw [cleanData_filter_map]
    exact List.mem_map_of_mem _
      (List.mem_filter.2 ⟨hmem, by simp [keepRow, hc, hg]⟩)

/-- Witness for C3: the row with the textual previous count survives
cleaning of a concrete table that also contains a dropped row. -/
theorem loader_drops_exactly_witness :
    cleanRow exRawPrevNA ∈ cleanData [exRawNA, exRawPrevNA] :=
  (loader_drops_exactly [exRawNA, exRawPrevNA]).2.2 exRawPrevNA
    (by decide) (by decide) (by decide)

/-- C4: the high-growth percentage is part/total*100 with an explicit 0
result when the record count is 0 (never an error), and for every
dataset that reaches the dashboard (which is always non-empty, as the
pipeline conjunct shows) the trend-split percentages are defined and
equal part/total*100 with a non-zero denominator. -/
theorem percentage_semantics (df : List Row) (t : ℚ) :
    (df.length = 0 → highGrowthPct df t = 0) ∧
    (df ≠ [] →
      highGrowthPct df t =
        (highGrowthCount df t : ℚ) / (df.length : ℚ) * 100 ∧
      increasePct df =
        some (((increase df).length : ℚ) / (df.length : ℚ) * 100) ∧
      decreasePct df =
        some (((decrease df).length : ℚ) / (df.length : ℚ) * 100)) ∧
    (∀ (tb : RawTable) (sel d title : String) (data : List Row),
      pipeline tb sel d = .dashboard title data → data ≠ []) := by
  refine ⟨?_, ?_, ?_⟩
  · intro h
    simp [highGrowthPct, h]
  · intro h
    have hl : 0 < df.length := List.length_pos.2 h
    have hl0 : df.length ≠ 0 := Nat.pos_iff_ne_zero.1 hl
    exact ⟨by simp [highGrowthPct, hl], by simp [increasePct, hl0],
      by simp [decreasePct, hl0]⟩
  · intro tb sel d title data h
    by_cases h1 : (missingCols tb.headers).isEmpty
    · by_cases h2 : ((applyFilter (cleanData tb.rows) sel
          (selectedDistrict sel d)).1).isEmpty
      · simp [pipeline, h1, h2] at h
      · simp [pipeline, h1, h2] at h
        intro hdata
        rw [hdata] at h
        exact h2 (by simp [h.2])
    · simp [pipeline, h1] at h

/-- Witness for C4 at the empty dataset and a concrete singleton
dataset. -/
theorem percentage_semantics_witness :
    highGrowthPct ([] : List Row) 5 = 0 ∧
    increasePct [exRow1] =
      some (((increase [exRow1]).length : ℚ) /
        (([exRow1] : List Row).length : ℚ) * 100) :=
  ⟨(percentage_semantics [] 5).1 rfl,
    ((percentage_semantics [exRow1] 5).2.1 (by decide)).2.1⟩

/-- C9: under the nationwide sentinel 전체 the district selector is
forced to 전체, the filter returns the full dataset untouched by any
district predicate, and the pipeline outcome is independent of the
district choice. -/
theorem nationwide_ignores_district (df : List Row)
    (choice c1 c2 : String) (tb : RawTable) :
    selectedDistrict "전체" choice = "전체" ∧
    applyFilter df "전체" choice = (df, "전국") ∧
    pipeline tb "전체" c1 = pipeline tb "전체" c2 := by
  refine ⟨by simp [selectedDistrict], by simp [applyFilter],
    by simp [pipeline, selectedDistrict]⟩

/-- C2: on a non-empty cleaned dataset the four quadrants are pairwise
disjoint, their union is the whole dataset (membership and counts), and
a record exactly at a median falls into the at-least side (q1 or q4 for
the count median, q1 or q2 for the growth median). -/
theorem quadrants_partition (df : List Row) (_hne : df ≠ []) :
    (∀ r, r ∈ df ↔ (r ∈ q1 df ∨ r ∈ q2 df ∨ r ∈ q3 df ∨ r ∈ q4 df)) ∧
    ((q1 df).length + (q2 df).length + (q3 df).length + (q4 df).length
      = df.length) ∧
    (∀ r, ¬(r ∈ q1 df ∧ r ∈ q2 df)) ∧
    (∀ r, ¬(r ∈ q1 df ∧ r ∈ q3 df)) ∧
    (∀ r, ¬(r ∈ q1 df ∧ r ∈ q4 df)) ∧
    (∀ r, ¬(r ∈ q2 df ∧ r ∈ q3 df)) ∧
    (∀ r, ¬(r ∈ q2 df ∧ r ∈ q4 df)) ∧
    (∀ r, ¬(r ∈ q3 df ∧ r ∈ q4 df)) ∧
    (∀ r ∈ df, r.current = medianStores df → r ∈ q1 df ∨ r ∈ q4 df) ∧
    (∀ r ∈ df, r.growth = medianGrowth df → r ∈ q1 df ∨ r ∈ q2 df) := by
  refine ⟨?_, ?_, ?_, ?_, ?_, ?_, ?_, ?_, ?_, ?_⟩
  · intro r
    constructor
    · exact mem_quad_union df r
    · rintro (h | h | h | h) <;> exact (List.mem_filter.1 h).1
  · apply length_filter_four
    intro a _
    rcases le_or_lt (medianStores df) a.current with hc | hc <;>
      rcases le_or_lt (medianGrowth df) a.growth with hg | hg
    · simp [hc, hg, not_lt.2 hc, not_lt.2 hg]
    · simp [hc, hg, not_lt.2 hc, not_le.2 hg]
    · simp [hc, hg, not_le.2 hc, not_lt.2 hg]
    · simp [hc, hg, not_le.2 hc, not_le.2 hg]
  · rintro r ⟨h1, h2⟩
    have g1 := of_decide_eq_true (List.mem_filter.1 h1).2
    have g2 := of_decide_eq_true (List.mem_filter.1 h2).2
    exact absurd g1.1 (not_le.2 g2.1)
  · rintro r ⟨h1, h2⟩
    have g1 := of_decide_eq_true (List.mem_filter.1 h1).2
    have g2 := of_decide_eq_true (List.mem_filter.1 h2).2
    exact absurd g1.1 (not_le.2 g2.1)
  · rintro r ⟨h1, h2⟩
    have g1 := of_decide_eq_true (List.mem_filter.1 h1).2
    have g2 := of_decide_eq_true (List.mem_filter.1 h2).2
    exact absurd g1.2 (not_le.2 g2.2)
  · rintro r ⟨h1, h2⟩
    have g1 := of_decide_eq_true (List.mem_filter.1 h1).2
    have g2 := of_decide_eq_true (List.mem_filter.1 h2).2
    exact absurd g1.2 (not_le.2 g2.2)
  · rintro r ⟨h1, h2⟩
    have g1 := of_decide_eq_true (List.mem_filter.1 h1).2
    have g2 := of_decide_eq_true (List.mem_filter.1 h2).2
    exact absurd g1.1 (not_lt.2 g2.1)
  · rintro r ⟨h1, h2⟩
    have g1 := of_decide_eq_true (List.mem_filter.1 h1).2
    have g2 := of_decide_eq_true (List.mem_filter.1 h2).2
    exact absurd g1.1 (not_lt.2 g2.1)
  · intro r hr heq
    have hc : medianStores df ≤ r.current := le_of_eq heq.symm
    rcases le_or_lt (medianGrowth df) r.growth with hg | hg
    · exact Or.inl (List.mem_filter.2 ⟨hr, by simp [hc, hg]⟩)
    · exact Or.inr (List.mem_filter.2 ⟨hr, by simp [hc, hg]⟩)
  · intro r hr heq
    have hg : medianGrowth df ≤ r.growth := le_of_eq heq.symm
    rcases le_or_lt (medianStores df) r.current with hc | hc
    · exact Or.inl (List.mem_filter.2 ⟨hr, by simp [hc, hg]⟩)
    · exact Or.inr (List.mem_filter.2 ⟨hr, by simp [hc, hg]⟩)

/-- Witness for C2 on a concrete two-record dataset. -/
theorem quadrants_partition_witness :
    (q1 [exRow1, exRow2]).length + (q2 [exRow1, exRow2]).length +
      (q3 [exRow1, exRow2]).length + (q4 [exRow1, exRow2]).length =
      ([exRow1, exRow2] : List Row).length :=
  (quadrants_partition [exRow1, exRow2] (by decide)).2.1

/-- C5: when any required column is missing, the pipeline stops with a
schema-mismatch outcome whose field list names exactly the missing
required columns — all of them, not just the first — and no filtering
or view computation happens. -/
theorem schemaMismatch_names_all (tb : RawTable) (sel d : String)
    (h : missingCols tb.headers ≠ []) :
    pipeline tb sel d = .schemaMismatch (missingCols tb.headers) ∧
    (∀ c ∈ requiredHeaders, c ∉ tb.headers → c ∈ missingCols tb.headers) ∧
    (∀ c ∈ missingCols tb.headers, c ∈ requiredHeaders ∧ c ∉ tb.headers) := by
  refine ⟨?_, ?_, ?_⟩
  · have h1 : (missingCols tb.headers).isEmpty = false := by
      simpa [List.isEmpty_iff] using h
    simp [pipeline, h1]
  · intro c hc hnot
    exact List.mem_filter.2 ⟨hc, by simpa using hnot⟩
  · intro c hc
    have h2 := List.mem_filter.1 hc
    exact ⟨h2.1, by simpa using h2.2⟩

/-- Witness for C5: a header set missing four required columns yields a
schema mismatch naming all four, in required-column order. -/
theorem schemaMismatch_names_all_witness :
    pipeline ⟨exHeadersPartial, []⟩ "전체" "전체" =
      .schemaMismatch ["시군구", "사업자수(당월)", "사업자수(전월)", "증감율"] := by
  rw [(schemaMismatch_names_all ⟨exHeadersPartial, []⟩ "전체" "전체"
    (by decide)).1]
  decide

/-- C6 counterexample: a table lacking only the district column 시군구
does not load with district filtering skipped — the schema check treats
시군구 as required and the pipeline stops with a schema mismatch, so the
claim that the district column is optional for loading is false. -/
theorem district_optional_counterexample :
    missingCols exHeadersNoDistrict = ["시군구"] ∧
    pipeline ⟨exHeadersNoDistrict, [exRawSeoul]⟩ "전체" "전체" =
      .schemaMismatch ["시군구"] := by
  decide

/-- C6 amended: the district column 시군구 is required at load time — a
table lacking it gets a schema-mismatch outcome naming it and no
filtering happens; district filtering is skipped (no district
predicate) exactly when the nationwide sentinel 전체 is the selected
region. -/
theorem district_required_at_load (tb : RawTable) (sel d : String)
    (h : "시군구" ∉ tb.headers) :
    "시군구" ∈ missingCols tb.headers ∧
    pipeline tb sel d = .schemaMismatch (missingCols tb.headers) ∧
    (∀ (df : List Row) (choice : String),
      applyFilter df "전체" (selectedDistrict "전체" choice) =
        (df, "전국")) := by
  have hm : "시군구" ∈ missingCols tb.headers :=
    List.mem_filter.2 ⟨by decide, by simpa using h⟩
  refine ⟨hm, ?_, ?_⟩
  · have hne : missingCols tb.headers ≠ [] := List.ne_nil_of_mem hm
    have h1 : (missingCols tb.headers).isEmpty = false := by
      simpa [List.isEmpty_iff] using hne
    simp [pipeline, h1]
  · intro df choice
    simp [applyFilter, selectedDistrict]

/-- Witness for the amended C6 at a concrete district-less table. -/
theorem district_required_at_load_witness :
    "시군구" ∈ missingCols exHeadersNoDistrict :=
  (district_required_at_load ⟨exHeadersNoDistrict, [exRawSeoul]⟩
    "전체" "전체" (by decide)).1

/-- C8 counterexample: a schema-valid table whose only row has a
textual growth rate cleans to zero records, and the pipeline reports
this through the same no-data warning constructor that a non-matching
region/district filter produces — not through a distinct
empty-dataset error. -/
theorem emptyDataset_counterexample :
    cleanData [exRawNA] = [] ∧
    pipeline ⟨requiredHeaders, [exRawNA]⟩ "전체" "전체" =
      .noData "전국" ∧
    pipeline ⟨requiredHeaders, [exRawSeoul]⟩ "서울" "제주시" =
      .noData "서울 제주시" := by
  decide

/-- C8 amended: when zero records survive cleaning (on a schema-valid
table) the run ends in the no-data warning outcome — the same warning
used for an empty filter result — for every region/district selection;
there is no distinct empty-dataset error, and the run terminates
normally rather than crashing. -/
theorem empty_cleaning_same_warning (tb : RawTable) (sel d : String)
    (hs : missingCols tb.headers = []) (hc : cleanData tb.rows = []) :
    pipeline tb sel d =
      .noData (applyFilter [] sel (selectedDistrict sel d)).2 := by
  have h1 : (missingCols tb.headers).isEmpty = true := by simp [hs]
  have h2 : ((applyFilter [] sel (selectedDistrict sel d)).1).isEmpty = true := by
    simp [applyFilter_nil]
  simp [pipeline, h1, hc, h2]

/-- Witness for the amended C8 at a concrete all-dropped table. -/
theorem empty_cleaning_same_warning_witness :
    pipeline ⟨requiredHeaders, [exRawNA]⟩ "전체" "전체" =
      .noData (applyFilter [] "전체"
        (selectedDistrict "전체" "전체")).2 :=
  empty_cleaning_same_warning ⟨requiredHeaders, [exRawNA]⟩ "전체" "전체"
    (by decide) (by decide)

/-- C10: a raw row whose previous-count cell fails coercion but whose
current count and growth rate are valid numbers is retained by
cleaning, its previous count is recorded as missing, it contributes
nothing to the previous-month total (which skips missing values rather
than dropping the record or zero-filling), and it participates in the
downstream views: it lands in one of the four quadrants and in one of
the three trend buckets of the cleaned dataset. -/
theorem prev_missing_participates (rows : List RawRow) (rr : RawRow)
    (hmem : rr ∈ rows) (hc : (toNumeric rr.current).isSome = true)
    (hg : (toNumeric rr.growth).isSome = true)
    (hp : toNumeric rr.previous = none) :
    cleanRow rr ∈ cleanData rows ∧
    (cleanRow rr).previous = none ∧
    (∀ df : List Row, prevTotal (cleanRow rr :: df) = prevTotal df) ∧
    (cleanRow rr ∈ q1 (cleanData rows) ∨ cleanRow rr ∈ q2 (cleanData rows) ∨
      cleanRow rr ∈ q3 (cleanData rows) ∨
      cleanRow rr ∈ q4 (cleanData rows)) ∧
    (cleanRow rr ∈ increase (cleanData rows) ∨
      cleanRow rr ∈ decrease (cleanData rows) ∨
      cleanRow rr ∈ stable (cleanData rows)) := by
  have hmem2 : cleanRow rr ∈ cleanData rows := by
    rw [cleanData_filter_map]
    exact List.mem_map_of_mem _
      (List.mem_filter.2 ⟨hmem, by simp [keepRow, hc, hg]⟩)
  refine ⟨hmem2, by simp [cleanRow, hp], ?_,
    mem_quad_union _ _ hmem2, ?_⟩
  · intro df
    simp [prevTotal, List.filterMap_cons, cleanRow, hp]
  · rcases lt_trichotomy (cleanRow rr).growth 0 with h | h | h
    · exact Or.inr (Or.inl (List.mem_filter.2 ⟨hmem2, by simp [h]⟩))
    · exact Or.inr (Or.inr (List.mem_filter.2 ⟨hmem2, by simp [h]⟩))
    · exact Or.inl (List.mem_filter.2 ⟨hmem2, by simp [h]⟩)

/-- Witness for C10 at a concrete table containing the row with the
textual previous count. -/
theorem prev_missing_participates_witness :
    cleanRow exRawPrevNA ∈ cleanData [exRawSeoul, exRawPrevNA] :=
  (prev_missing_participates [exRawSeoul, exRawPrevNA] exRawPrevNA
    (by decide) (by decide) (by decide) (by decide)).1

end PJ1
